import Mathlib

/-!
Verification of the news-scraper pipeline (site-adapter dispatch, per-site
extraction, pagination, and run-level aggregation) against its specification.

The embedding follows the Python sources:
  * `scraper/core.py`     — `BaseScraper`, `RequestsScraper`, `PlaywrightScraper`,
                            `ScraperFactory.create_scraper`
  * `scraper/site_scrapers.py` — the concrete site scrapers, `SCRAPER_MAP`,
                            `get_scraper_for_url`
  * `src/main.py`         — the per-URL aggregation loop in `main`

Python strings are modelled as Lean `String`s, and the string operations the
code uses (`split`, `lower`, `strip`, substring membership via `in`,
`startswith`) are given explicit, fuel-free executable definitions over the
underlying character lists so that every definition evaluates by `decide`.
-/

/-- Python `pat in s` on character lists: does `pat` occur as a contiguous
substring? (`"" in s` is `True` in Python, matched here.) -/
def containsSub (pat : List Char) : List Char → Bool
  | [] => pat.isEmpty
  | c :: rest => List.isPrefixOf pat (c :: rest) || containsSub pat rest

/-- Python `pat in s` on strings. -/
def pyContains (s pat : String) : Bool := containsSub pat.data s.data

/-- Python `s.lower()` (ASCII case folding, which is all the code relies on). -/
def pyLower (s : String) : String := ⟨s.data.map Char.toLower⟩

/-- Python `s.strip()`: drop whitespace from both ends. -/
def pyStrip (s : String) : String :=
  ⟨((s.data.dropWhile Char.isWhitespace).reverse.dropWhile Char.isWhitespace).reverse⟩

/-- Python `s.startswith(pat)`. -/
def pyStartsWith (s pat : String) : Bool := List.isPrefixOf pat.data s.data

/-- Left-to-right, non-overlapping split on a separator, as Python
`s.split(sep)` performs it; `fuel` bounds the recursion and is instantiated
with the length of the input so the function is structural (and hence
evaluates inside the kernel). -/
def splitOnFuel (sep : List Char) : Nat → List Char → List Char → List (List Char)
  | 0, acc, _ => [acc.reverse]
  | _ + 1, acc, [] => [acc.reverse]
  | fuel + 1, acc, c :: rest =>
    if List.isPrefixOf sep (c :: rest) then
      acc.reverse :: splitOnFuel sep fuel [] (List.drop (sep.length - 1) rest)
    else
      splitOnFuel sep fuel (c :: acc) rest

/-- Python `s.split(sep)` for a non-empty separator. -/
def pySplit (s sep : String) : List String :=
  (splitOnFuel sep.data s.data.length [] s.data).map (fun l => ⟨l⟩)

/-- Domain extraction, `url.split("//")[-1].split("/")[0].lower()` — the
expression used verbatim both in `get_scraper_for_url`
(site_scrapers.py:397) and in `ScraperFactory.create_scraper` (core.py:149). -/
def domainOf (url : String) : String :=
  pyLower ⟨((pySplit url "//").getLastD url).data.takeWhile (fun c => c ≠ '/')⟩

/-- The adapter classes of the repository: the five site scrapers of
site_scrapers.py plus the two base classes of core.py that the factory
falls back to. -/
inductive AdapterTy where
  | adnoc
  | ahram
  | aljazeera
  | africanreview
  | almonitor
  | basePlaywright
  | baseRequests
deriving DecidableEq

/-- Map `SCRAPER_MAP` (site_scrapers.py:385-392), in insertion order — Python
dict iteration preserves it, and `get_scraper_for_url` iterates the map
in that order. -/
def SCRAPER_MAP : List (String × AdapterTy) :=
  [("adnoc.ae", .adnoc),
   ("ahram.org.eg", .ahram),
   ("aljazeera.com", .aljazeera),
   ("africanreview.com", .africanreview),
   ("al-monitor.com", .almonitor)]

/-- Loop `for key, scraper_class in SCRAPER_MAP.items(): if key in domain`
of `get_scraper_for_url`: first entry whose key occurs in the domain. -/
def findScraper (domain : String) : Option (String × AdapterTy) :=
  SCRAPER_MAP.find? (fun kv => pyContains domain kv.1)

/-- Factory `ScraperFactory.create_scraper` (core.py:146-166): capability allow-lists
deciding between the Playwright and Requests base classes, defaulting to
Playwright for unknown domains. -/
def create_scraper (url : String) : AdapterTy :=
  let domain := domainOf url
  if pyContains domain "adnoc.ae" || pyContains domain "aljazeera.com" then
    .basePlaywright
  else if pyContains domain "al-monitor.com" || pyContains domain "alarabiya.net" then
    .basePlaywright
  else if pyContains domain "africanreview.com" || pyContains domain "ahram.org.eg" then
    .baseRequests
  else
    .basePlaywright

/-- Dispatcher `get_scraper_for_url` (site_scrapers.py:395-405): first match in
`SCRAPER_MAP`, else the factory fallback. -/
def get_scraper_for_url (url : String) : AdapterTy :=
  match findScraper (domainOf url) with
  | some kv => kv.2
  | none => create_scraper url

/-- The six capability allow-list keys tested by `create_scraper`. -/
def capabilityKeys : List String :=
  ["adnoc.ae", "aljazeera.com", "al-monitor.com", "alarabiya.net",
   "africanreview.com", "ahram.org.eg"]

/-- A sequence of resolution calls, in call order: dispatch keeps no state,
so a trace of calls is just the pointwise image. -/
def resolveAll (urls : List String) : List AdapterTy :=
  urls.map get_scraper_for_url

/-- One normalized article record, mirroring the Python dicts the scrapers
append to `self.results`. `url` is an `Option` because the Playwright call
`get_attribute("href")` can return `None`, which the ADNOC and Al Jazeera
scrapers store unchanged; `category` is `none` for scrapers whose dicts have
no `category` key; `source_url` is `none` until `main` tags the record. -/
structure Record where
  title : String
  url : Option String
  date : String
  snippet : String
  category : Option String
  source : String
  query : String
  source_url : Option String
deriving DecidableEq

/-- A candidate `.search-result-item` element on an ADNOC results page
(site_scrapers.py:48-58): optional `.title`, `.date`, `.snippet` children and
an optional `a` child whose `href` attribute may itself be absent. -/
structure AdnocElement where
  title_el : Option String
  link_el : Option (Option String)
  date_el : Option String
  snippet_el : Option String
deriving DecidableEq

/-- Per-element extraction of `AdnocScraper.scrape` (site_scrapers.py:48-67):
a record is produced iff both the title element and the link element are
present; the `href` value is stored as-is (possibly `None`). -/
def adnocExtract (query : String) (e : AdnocElement) : Option Record :=
  match e.title_el, e.link_el with
  | some t, some href =>
    some ⟨pyStrip t, href, pyStrip ((e.date_el).getD ""), pyStrip ((e.snippet_el).getD ""),
          none, "ADNOC", query, none⟩
  | _, _ => none

/-- The title anchor `div h5 a` of an Ahram result row: its text plus its
optional `href` attribute (BeautifulSoup `get("href", "")` defaults it). -/
structure AhramTitleEl where
  text : String
  href : Option String
deriving DecidableEq

/-- A candidate `table tbody tr` row on an Ahram results page
(site_scrapers.py:109-126). -/
structure AhramElement where
  category_el : Option String
  title_el : Option AhramTitleEl
  date_el : Option String
  snippet_el : Option String
deriving DecidableEq

/-- Relative-URL absolutization as Ahram does it (site_scrapers.py:121-122):
only a non-empty link that starts with neither scheme is prefixed. -/
def ahramAbsolutize (link : String) : String :=
  if link ≠ "" ∧ ¬(pyStartsWith link "http://" || pyStartsWith link "https://") then
    "https://english.ahram.org.eg" ++ link
  else
    link

/-- Per-element extraction of `AhramScraper.scrape` (site_scrapers.py:109-136):
only the presence of the title element is checked; a missing `href` yields
`link = ""` and the record is still produced. -/
def ahramExtract (query : String) (e : AhramElement) : Option Record :=
  match e.title_el with
  | none => none
  | some t =>
    some ⟨pyStrip t.text, some (ahramAbsolutize ((t.href).getD "")),
          pyStrip ((e.date_el).getD ""), pyStrip ((e.snippet_el).getD ""),
          some (pyStrip ((e.category_el).getD "")), "Ahram Online", query, none⟩

/-- The title anchor `h3 a, h2 a` of an Al Jazeera `article` element. -/
structure AljTitleEl where
  text : String
  href : Option String
deriving DecidableEq

/-- A candidate `article` element on an Al Jazeera results page
(site_scrapers.py:254-269). -/
structure AljElement where
  title_el : Option AljTitleEl
  date_el : Option String
  category_el : Option String
  snippet_el : Option String
deriving DecidableEq

/-- Absolutization as Al Jazeera performs it (site_scrapers.py:263-265): applied only when
`href` is a non-None, truthy string not starting with a scheme; a `None`
href is stored unchanged. -/
def aljAbsolutize (href : Option String) : Option String :=
  match href with
  | none => none
  | some link =>
    if link ≠ "" ∧ ¬(pyStartsWith link "http://" || pyStartsWith link "https://") then
      some ("https://www.aljazeera.com" ++ link)
    else
      some link

/-- Per-element extraction of `AlJazeeraScraper.scrape`
(site_scrapers.py:254-279): only the title element is required. -/
def aljExtract (query : String) (e : AljElement) : Option Record :=
  match e.title_el with
  | none => none
  | some t =>
    some ⟨pyStrip t.text, aljAbsolutize t.href,
          pyStrip ((e.date_el).getD ""), pyStrip ((e.snippet_el).getD ""),
          some (pyStrip ((e.category_el).getD "")), "Al Jazeera", query, none⟩

/-- Outcome of loading one results page inside a dynamic scraper pagination
loop: either the page renders with a list of candidate elements and a flag
saying whether an enabled next-page control is present, or the
navigation/wait raises (timeout, selector not found, navigation failure). -/
inductive Fetch (α : Type) where
  | ok (elems : List α) (next : Bool)
  | err
deriving DecidableEq

/-- Whether an enabled next-page control is available on a page; an errored
page offers none. -/
def fetchNext {α : Type} : Fetch α → Bool
  | .ok _ n => n
  | .err => false

/-- Elements of a page; an errored page yields none. -/
def fetchElems {α : Type} : Fetch α → List α
  | .ok es _ => es
  | .err => []

/-- Result of one `scrape` call: the value returned to the caller, the
value of `self.results` on the instance after the call, and how many per-page extraction
passes ran. -/
structure ScrapeOut where
  ret : List Record
  state : List Record
  passes : Nat
deriving DecidableEq

/-- The `for page_num in range(max_pages)` pagination loop shared by the
dynamic scrapers (site_scrapers.py:41-77 for ADNOC, 246-289 for Al Jazeera):
each iteration extracts the elements of the current page into `self.results`
(`acc`); when further iterations remain (`page_num < max_pages - 1`) the
enabled next-page control is looked up — absent means `break`; a page-level
error anywhere raises, is caught by the surrounding `except`, and the call
returns `[]` while `self.results` keeps what was accumulated. `remaining`
is `max_pages - page_num`, so the recursion is structural. -/
def pagLoop {α : Type} (pages : Nat → Fetch α) (extract : α → Option Record)
    (pidx : Nat) (remaining : Nat) (acc : List Record) (passes : Nat) : ScrapeOut :=
  match remaining with
  | 0 => ⟨acc, acc, passes⟩
  | r + 1 =>
    match pages pidx with
    | .err => ⟨[], acc, passes⟩
    | .ok elems next =>
      let acc2 := acc ++ elems.filterMap extract
      if r = 0 then ⟨acc2, acc2, passes + 1⟩
      else if next then pagLoop pages extract (pidx + 1) r acc2 (passes + 1)
      else ⟨acc2, acc2, passes + 1⟩

/-- Environment of one `AdnocScraper.scrape` call: whether the initial
navigation / `.search-results` wait raises, whether the zero-matches banner
is present, and the successive page loads. -/
structure AdnocSite where
  initial_err : Bool
  zero_matches : Bool
  pages : Nat → Fetch AdnocElement

/-- Scrape method `AdnocScraper.scrape` (site_scrapers.py:19-86) on an instance whose
`self.results` currently holds `init`: an initial failure or the
"we found 0 matches" banner returns `[]` before the loop (the banner path is
a normal, non-exception return); otherwise the pagination loop runs and, on
normal completion, the whole of `self.results` is returned. -/
def adnocScrape (site : AdnocSite) (query : String) (max_pages : Nat)
    (init : List Record) : ScrapeOut :=
  if site.initial_err then ⟨[], init, 0⟩
  else if site.zero_matches then ⟨[], init, 0⟩
  else pagLoop site.pages (adnocExtract query) 0 max_pages init 0

/-- Environment of one `AlJazeeraScraper.scrape` call: whether the initial
navigation / search-box fill / first wait raises, and the successive pages. -/
structure AljSite where
  initial_err : Bool
  pages : Nat → Fetch AljElement

/-- Scrape method `AlJazeeraScraper.scrape` (site_scrapers.py:225-298): same shape as
ADNOC minus the zero-matches banner check. -/
def aljazeeraScrape (site : AljSite) (query : String) (max_pages : Nat)
    (init : List Record) : ScrapeOut :=
  if site.initial_err then ⟨[], init, 0⟩
  else pagLoop site.pages (aljExtract query) 0 max_pages init 0

/-- Environment of one `AhramScraper.scrape` call: whether the single HTTP
fetch (or its status check) raises, and the candidate rows of the fetched
document. -/
structure AhramSite where
  fetch_err : Bool
  rows : List AhramElement

/-- Scrape method `AhramScraper.scrape` (site_scrapers.py:92-146): a single page fetch, no
pagination (`max_pages` is accepted and ignored); on success every row is
extracted into `self.results` and the whole list is returned; a fetch error
is caught and the call returns `[]` with `self.results` unchanged. -/
def ahramScrape (site : AhramSite) (query : String) (_max_pages : Nat)
    (init : List Record) : ScrapeOut :=
  if site.fetch_err then ⟨[], init, 0⟩
  else
    let st := init ++ site.rows.filterMap (ahramExtract query)
    ⟨st, st, 1⟩

/-- Exceptions a `scrape` invocation can raise into the per-URL
`try`/`except` of `main`: the `NotImplementedError` of the base classes, or any other
page-level exception that escapes an adapter. -/
inductive ScrapeError where
  | notImplemented
  | other
deriving DecidableEq

/-- Base method `RequestsScraper.scrape` (core.py:89-98): after lazily initializing the
session it unconditionally raises `NotImplementedError`. -/
def baseRequestsScrape : Except ScrapeError (List Record) :=
  .error .notImplemented

/-- Base method `PlaywrightScraper.scrape` (core.py:131-140): after lazily initializing
the browser it unconditionally raises `NotImplementedError`. -/
def basePlaywrightScrape : Except ScrapeError (List Record) :=
  .error .notImplemented

/-- Tagging, `result[\x27source_url\x27] = url`, applied to every record of the result
list of one URL before it is appended to `all_results` (main.py:154-156). -/
def tagRecords (url : String) (rs : List Record) : List Record :=
  rs.map (fun r =>
    ⟨r.title, r.url, r.date, r.snippet, r.category, r.source, r.query, some url⟩)

/-- A *world* assigns to each target URL the outcome of resolving its adapter
and invoking `scrape` on it — exactly the composite `main` performs inside
its per-URL `try` (main.py:136-147): either the record list the call
returned, or the exception it raised. -/
def World : Type := String → Except ScrapeError (List Record)

/-- The per-URL loop of `main` (main.py:131-163): the outcome of each URL is
computed; an exception is caught and the loop continues with the next URL; a
returned list is tagged with the source URL and appended to `all_results`
(the `if results:` guard skips empty lists, which appends nothing either
way). -/
def aggregate (world : World) : List String → List Record
  | [] => []
  | u :: rest =>
    match world u with
    | .error _ => aggregate world rest
    | .ok rs => tagRecords u rs ++ aggregate world rest

/-- Observable outcome of one `main` run. -/
structure RunOutcome where
  articles : List Record
  total_results : Nat
  scrape_invocations : Nat
  logged_no_urls : Bool
  wrote_output : Bool
deriving DecidableEq

/-- Entry point `main` (main.py:119-182) after input extraction, as a function of the
resolved `urls` list and the world: an empty list logs "No URLs provided"
and returns before any scraping (main.py:119-122); otherwise every URL gets
one adapter invocation, results are aggregated, `total_results` is
`len(all_results)`, and the output document is written only when
`all_results` is non-empty (main.py:169). The Lean function is total: no
branch of the modelled code can raise. -/
def mainRun (world : World) (urls : List String) : RunOutcome :=
  match urls with
  | [] => ⟨[], 0, 0, true, false⟩
  | _ =>
    let arts := aggregate world urls
    ⟨arts, arts.length, urls.length, false, arts ≠ []⟩

/-- The world induced by dispatch when the per-site content outcomes are
`siteOutcome`: a URL resolved to one of the base classes hits their
`NotImplementedError`-raising `scrape`; a URL resolved to a concrete site
scraper yields whatever its page contents produce. -/
def worldWith (siteOutcome : String → Except ScrapeError (List Record)) : World :=
  fun url =>
    match get_scraper_for_url url with
    | .basePlaywright => basePlaywrightScrape
    | .baseRequests => baseRequestsScrape
    | _ => siteOutcome url

lemma length_filterMap_eq_sub {α β : Type} (f : α → Option β) (l : List α) :
    (l.filterMap f).length = l.length - l.countP (fun a => (f a).isNone) := by
  induction l with
  | nil => rfl
  | cons a t ih =>
    have hle : t.countP (fun a => (f a).isNone) ≤ t.length := List.countP_le_length _
    rw [List.filterMap_cons, List.countP_cons]
    cases h : f a with
    | none => simp [h, ih]
    | some b => simp [h, ih]; omega

lemma pagLoop_passes_le {α : Type} (pages : Nat → Fetch α) (extract : α → Option Record) :
    ∀ (r pidx : Nat) (acc : List Record) (p0 : Nat),
      (pagLoop pages extract pidx r acc p0).passes ≤ p0 + r := by
  intro r
  induction r with
  | zero => intro pidx acc p0; simp [pagLoop]
  | succ r ih =>
    intro pidx acc p0
    cases h : pages pidx with
    | err => simp [pagLoop, h]
    | ok elems next =>
      by_cases hr : r = 0
      · subst hr; simp [pagLoop, h]
      · by_cases hn : next
        · subst hn
          simp only [pagLoop, h, hr, if_false, if_true, ite_false, ite_true]
          have := ih (pidx + 1) (acc ++ elems.filterMap extract) (p0 + 1)
          omega
        · simp only [Bool.not_eq_true] at hn
          subst hn
          simp [pagLoop, h, hr]

lemma pagLoop_halt {α : Type} (pages : Nat → Fetch α) (extract : α → Option Record) :
    ∀ (i r pidx : Nat) (acc : List Record) (p0 : Nat),
      i + 1 < r → fetchNext (pages (pidx + i)) = false →
      (pagLoop pages extract pidx r acc p0).passes ≤ p0 + i + 1 := by
  intro i
  induction i with
  | zero =>
    intro r pidx acc p0 hr hn
    obtain ⟨r', rfl⟩ : ∃ r', r = r' + 1 := ⟨r - 1, by omega⟩
    cases h : pages pidx with
    | err => simp [pagLoop, h]
    | ok elems next =>
      have hnx : next = false := by
        have : pidx + 0 = pidx := by omega
        rw [this] at hn
        simpa [fetchNext, h] using hn
      subst hnx
      have hr' : r' ≠ 0 := by omega
      simp [pagLoop, h, hr']
  | succ i ih =>
    intro r pidx acc p0 hr hn
    obtain ⟨r', rfl⟩ : ∃ r', r = r' + 1 := ⟨r - 1, by omega⟩
    cases h : pages pidx with
    | err => simp [pagLoop, h]; omega
    | ok elems next =>
      have hr' : r' ≠ 0 := by omega
      by_cases hnx : next
      · subst hnx
        simp only [pagLoop, h, hr', if_false, ite_false, ite_true]
        have harg : pidx + 1 + i = pidx + (i + 1) := by omega
        have := ih r' (pidx + 1) (acc ++ elems.filterMap extract) (p0 + 1)
          (by omega) (by rw [harg]; exact hn)
        omega
      · simp only [Bool.not_eq_true] at hnx
        subst hnx
        simp [pagLoop, h, hr']

/-- Records a sequence of successfully loaded pages contributes: the extracted
records of page 0, then those of page 1, and so on for `i` pages. -/
def pageRecords {α : Type} (extract : α → Option Record) (E : Nat → List α) : Nat → List Record
  | 0 => []
  | i + 1 => (E 0).filterMap extract ++ pageRecords extract (fun j => E (j + 1)) i

lemma pagLoop_err_at {α : Type} (extract : α → Option Record) :
    ∀ (i : Nat) (pages : Nat → Fetch α) (E : Nat → List α) (r pidx : Nat)
      (acc : List Record) (p0 : Nat),
      (∀ j, j < i → pages (pidx + j) = .ok (E j) true) →
      pages (pidx + i) = .err → i < r →
      pagLoop pages extract pidx r acc p0
        = ⟨[], acc ++ pageRecords extract E i, p0 + i⟩ := by
  intro i
  induction i with
  | zero =>
    intro pages E r pidx acc p0 hok herr hlt
    obtain ⟨r', rfl⟩ : ∃ r', r = r' + 1 := ⟨r - 1, by omega⟩
    have h0 : pages pidx = .err := by simpa using herr
    simp [pagLoop, h0, pageRecords]
  | succ i ih =>
    intro pages E r pidx acc p0 hok herr hlt
    obtain ⟨r', rfl⟩ : ∃ r', r = r' + 1 := ⟨r - 1, by omega⟩
    have h0 : pages pidx = .ok (E 0) true := by simpa using hok 0 (by omega)
    have hr' : r' ≠ 0 := by omega
    have hrec := ih pages (fun j => E (j + 1)) r' (pidx + 1)
      (acc ++ (E 0).filterMap extract) (p0 + 1)
      (by
        intro j hj
        have harg : pidx + 1 + j = pidx + (j + 1) := by omega
        rw [harg]
        exact hok (j + 1) (by omega))
      (by
        have harg : pidx + 1 + i = pidx + (i + 1) := by omega
        rw [harg]
        exact herr)
      (by omega)
    simp only [pagLoop, h0, hr', if_false, ite_false, ite_true, hrec, pageRecords]
    have hp : p0 + 1 + i = p0 + (i + 1) := by omega
    rw [List.append_assoc, hp]

lemma pagLoop_state_append {α : Type} (pages : Nat → Fetch α) (extract : α → Option Record) :
    ∀ (r pidx : Nat) (acc : List Record) (p0 : Nat),
      ∃ t, (pagLoop pages extract pidx r acc p0).state = acc ++ t := by
  intro r
  induction r with
  | zero => intro pidx acc p0; exact ⟨[], by simp [pagLoop]⟩
  | succ r ih =>
    intro pidx acc p0
    cases h : pages pidx with
    | err => exact ⟨[], by simp [pagLoop, h]⟩
    | ok elems next =>
      by_cases hr : r = 0
      · subst hr; exact ⟨elems.filterMap extract, by simp [pagLoop, h]⟩
      · by_cases hn : next
        · subst hn
          obtain ⟨t, ht⟩ := ih (pidx + 1) (acc ++ elems.filterMap extract) (p0 + 1)
          refine ⟨elems.filterMap extract ++ t, ?_⟩
          simp only [pagLoop, h, hr, if_false, ite_false, ite_true, ht, List.append_assoc]
        · simp only [Bool.not_eq_true] at hn
          subst hn
          exact ⟨elems.filterMap extract, by simp [pagLoop, h, hr]⟩

lemma adnocExtract_isNone (q : String) (e : AdnocElement) :
    (adnocExtract q e).isNone = ((e.title_el).isNone || (e.link_el).isNone) := by
  rcases e with ⟨t, l, d, s⟩
  cases t <;> cases l <;> simp [adnocExtract]

lemma ahramExtract_isNone (q : String) (e : AhramElement) :
    (ahramExtract q e).isNone = (e.title_el).isNone := by
  rcases e with ⟨c, t, d, s⟩
  cases t <;> simp [ahramExtract]

/-- C1: for every input URL, adapter resolution is total: when the lower-cased
domain contains a `SCRAPER_MAP` key the site adapter of the (first-)matching entry
is returned; when no key matches, the `ScraperFactory.create_scraper` default
is returned; and a domain matching none of the capability allow-lists gets
the dynamic Playwright adapter. Totality itself is definitional —
`get_scraper_for_url` is a total Lean function, mirroring the Python code,
which has no failure path. -/
theorem c1_dispatch_total_and_defaulted :
    (∀ url : String, ∃ a : AdapterTy, get_scraper_for_url url = a)
    ∧ (∀ url : String, ∀ k : String, ∀ a : AdapterTy,
        findScraper (domainOf url) = some (k, a) → get_scraper_for_url url = a)
    ∧ (∀ url : String, findScraper (domainOf url) = none →
        get_scraper_for_url url = create_scraper url)
    ∧ (∀ url : String, (∀ k ∈ capabilityKeys, pyContains (domainOf url) k = false) →
        get_scraper_for_url url = .basePlaywright) := by
  refine ⟨fun url => ⟨get_scraper_for_url url, rfl⟩, ?_, ?_, ?_⟩
  · intro url k a h
    unfold get_scraper_for_url
    rw [h]
  · intro url h
    unfold get_scraper_for_url
    rw [h]
  · intro url h
    have h1 := h "adnoc.ae" (by decide)
    have h2 := h "aljazeera.com" (by decide)
    have h3 := h "al-monitor.com" (by decide)
    have h4 := h "alarabiya.net" (by decide)
    have h5 := h "africanreview.com" (by decide)
    have h6 := h "ahram.org.eg" (by decide)
    have hfind : findScraper (domainOf url) = none := by
      unfold findScraper
      apply List.find?_eq_none.mpr
      intro kv hkv
      simp only [SCRAPER_MAP, List.mem_cons, List.not_mem_nil, or_false] at hkv
      rcases hkv with rfl | rfl | rfl | rfl | rfl <;>
        simp_all
    unfold get_scraper_for_url
    rw [hfind]
    unfold create_scraper
    simp [h1, h2, h3, h4, h5, h6]

/-- C1 witness: resolution at two concrete URLs — a registered domain and an
unknown one. -/
theorem c1_dispatch_total_and_defaulted_witness :
    get_scraper_for_url "https://www.adnoc.ae/search" = AdapterTy.adnoc
    ∧ get_scraper_for_url "https://unknown.example/search" = AdapterTy.basePlaywright := by
  constructor
  · exact c1_dispatch_total_and_defaulted.2.1 "https://www.adnoc.ae/search"
      "adnoc.ae" AdapterTy.adnoc (by decide)
  · exact c1_dispatch_total_and_defaulted.2.2.2 "https://unknown.example/search"
      (by decide)

/-- C7: for a URL whose domain contains a registered `SCRAPER_MAP` key (the
hypothesis states the first-matching entry, which is how the Python loop
picks one), resolution returns the adapter class of that entry; and resolution is
deterministic — dispatch holds no mutable state, so the result for a URL in
any trace of interleaved resolution calls equals the result for the same URL
in any other trace, at any positions. -/
theorem c7_registered_dispatch_deterministic :
    (∀ url : String, ∀ k : String, ∀ a : AdapterTy,
      findScraper (domainOf url) = some (k, a) →
      (k, a) ∈ SCRAPER_MAP ∧ pyContains (domainOf url) k = true
        ∧ get_scraper_for_url url = a)
    ∧ (∀ us vs : List String, ∀ i j : Nat, ∀ u : String,
        us[i]? = some u → vs[j]? = some u →
        (resolveAll us)[i]? = (resolveAll vs)[j]?) := by
  constructor
  · intro url k a h
    refine ⟨List.mem_of_find?_eq_some h, ?_, ?_⟩
    · have := List.find?_some h
      simpa [findScraper] using this
    · unfold get_scraper_for_url
      rw [h]
  · intro us vs i j u hi hj
    unfold resolveAll
    rw [List.getElem?_map, List.getElem?_map, hi, hj]

/-- C7 witness: a registered domain resolves to its class, and the same URL at
different positions of two different call traces resolves identically. -/
theorem c7_registered_dispatch_deterministic_witness :
    get_scraper_for_url "https://www.aljazeera.com/search" = AdapterTy.aljazeera
    ∧ (resolveAll ["https://x.example", "https://www.aljazeera.com/search"])[1]?
      = (resolveAll ["https://www.aljazeera.com/search"])[0]? := by
  constructor
  · exact (c7_registered_dispatch_deterministic.1 "https://www.aljazeera.com/search"
      "aljazeera.com" AdapterTy.aljazeera (by decide)).2.2
  · exact c7_registered_dispatch_deterministic.2
      ["https://x.example", "https://www.aljazeera.com/search"]
      ["https://www.aljazeera.com/search"] 1 0 "https://www.aljazeera.com/search"
      (by decide) (by decide)

/-- An ADNOC invocation environment whose single page renders `es` and offers
no next-page control. -/
def adnocOnePage (es : List AdnocElement) : AdnocSite :=
  ⟨false, false, fun _ => .ok es false⟩

/-- Required-field test of the claim, stated from the words of the spec ("title and
url are required; absence of either disqualifies a candidate element"): an
Ahram row lacks a required field when its title anchor is missing or the
anchor has no `href`. Used only to state what the code was claimed to do. -/
def ahramLacksRequiredSpec (e : AhramElement) : Bool :=
  match e.title_el with
  | none => true
  | some t => (t.href).isNone

/-- An Ahram row with every field present. -/
def ahramRowFull : AhramElement :=
  ⟨some "Politics", some ⟨"Oil output rises", some "/a/1"⟩, some "1 May", some "snip"⟩

/-- An Ahram row whose title anchor is present but has no `href`: under the
claim it lacks the required url and should be skipped. -/
def ahramRowNoHref : AhramElement :=
  ⟨none, some ⟨"Second story", none⟩, none, none⟩

/-- The Ahram page used as the C2 counterexample: two candidate rows, one of
which lacks a required field in the sense of the claim. -/
def ahramCexSite : AhramSite :=
  ⟨false, [ahramRowFull, ahramRowNoHref]⟩

/-- C2 counterexample: on a page with K = 2 candidate elements of which M = 1
lacks a required field (the second row has a title but no url), the claim
predicts K − M = 1 record, but `AhramScraper.scrape` checks only
`if title_el:` (site_scrapers.py:117) and produces 2 records — the
url-less row becomes a record with `url = ""` instead of being skipped. -/
theorem c2_counterexample :
    ahramCexSite.rows.length = 2
    ∧ ahramCexSite.rows.countP ahramLacksRequiredSpec = 1
    ∧ (ahramScrape ahramCexSite "q" 1 []).ret.length = 2
    ∧ (ahramScrape ahramCexSite "q" 1 []).ret.map Record.url
      = [some "https://english.ahram.org.eg/a/1", some ""]
    ∧ (ahramScrape ahramCexSite "q" 1 []).ret.length
      ≠ ahramCexSite.rows.length - ahramCexSite.rows.countP ahramLacksRequiredSpec := by
  decide

/-- C2 amended: the extraction pass of `scrape` produces exactly K − M records
from K candidate elements, where M counts the elements failing the required-element
check of the *code* — for ADNOC, a missing title element or missing link
element (site_scrapers.py:54); for Ahram, a missing title element only
(site_scrapers.py:117), a present anchor without `href` still yielding a
record (with empty url). A failing element is skipped without aborting
extraction of the remaining elements, and contributes no record. -/
theorem c2_amended_extraction_counts (q : String) (es : List AdnocElement)
    (rows : List AhramElement) :
    ((adnocScrape (adnocOnePage es) q 1 []).ret.length
      = es.length - es.countP (fun e => (e.title_el).isNone || (e.link_el).isNone))
    ∧ ((ahramScrape ⟨false, rows⟩ q 1 []).ret.length
      = rows.length - rows.countP (fun e => (e.title_el).isNone))
    ∧ (∀ e : AdnocElement, ((e.title_el).isNone || (e.link_el).isNone) = true →
        adnocExtract q e = none)
    ∧ (∀ e : AhramElement, (e.title_el).isNone = true → ahramExtract q e = none)
    ∧ (∀ (c d s : Option String) (txt : String),
        (ahramExtract q ⟨c, some ⟨txt, none⟩, d, s⟩).map Record.url
          = some (some "")) := by
  refine ⟨?_, ?_, ?_, ?_, ?_⟩
  · have hret : (adnocScrape (adnocOnePage es) q 1 []).ret
        = es.filterMap (adnocExtract q) := by
      simp [adnocScrape, adnocOnePage, pagLoop]
    rw [hret, length_filterMap_eq_sub]
    congr 1
    apply List.countP_congr
    intro e _
    simp [adnocExtract_isNone]
  · have hret : (ahramScrape ⟨false, rows⟩ q 1 []).ret
        = rows.filterMap (ahramExtract q) := by
      simp [ahramScrape]
    rw [hret, length_filterMap_eq_sub]
    congr 1
    apply List.countP_congr
    intro e _
    simp [ahramExtract_isNone]
  · intro e h
    have := adnocExtract_isNone q e
    rw [h] at this
    exact Option.isNone_iff_eq_none.mp this
  · intro e h
    have := ahramExtract_isNone q e
    rw [h] at this
    exact Option.isNone_iff_eq_none.mp this
  · intro c d s txt
    simp [ahramExtract, ahramAbsolutize]

/-- C3: over target URLs `[u1, u2]` whose scrapes return `r1` and `r2`, the
aggregated articles sequence is exactly the per-URL lists, each record tagged
with its source URL, concatenated in input order with internal order
preserved, and `total_results` is `|r1| + |r2|`. -/
theorem c3_aggregation_order (world : World) (u1 u2 : String)
    (r1 r2 : List Record) (h1 : world u1 = .ok r1) (h2 : world u2 = .ok r2) :
    (mainRun world [u1, u2]).articles = tagRecords u1 r1 ++ tagRecords u2 r2
    ∧ (mainRun world [u1, u2]).total_results = r1.length + r2.length := by
  have hagg : aggregate world [u1, u2] = tagRecords u1 r1 ++ tagRecords u2 r2 := by
    simp [aggregate, h1, h2]
  constructor
  · simpa [mainRun] using hagg
  · simp [mainRun, hagg, tagRecords]

/-- A record as the Ahram scraper would emit it, used for concrete runs. -/
def recA : Record :=
  ⟨"Oil output rises", some "https://english.ahram.org.eg/a/1", "1 May", "s",
   some "Politics", "Ahram Online", "iraq oil", none⟩

/-- A second concrete record for aggregation runs. -/
def recB : Record :=
  ⟨"Refinery news", some "https://www.aljazeera.com/b/2", "2 May", "t",
   some "Economy", "Al Jazeera", "iraq oil", none⟩

/-- A world where both of two URLs succeed, with one record each. -/
def worldBothOk : World :=
  fun u => if u = "https://u1.example/s" then .ok [recA] else .ok [recB]

/-- C3 witness: the aggregation property at a concrete two-URL run. -/
theorem c3_aggregation_order_witness :
    (mainRun worldBothOk ["https://u1.example/s", "https://u2.example/s"]).articles
      = tagRecords "https://u1.example/s" [recA] ++ tagRecords "https://u2.example/s" [recB]
    ∧ (mainRun worldBothOk ["https://u1.example/s", "https://u2.example/s"]).total_results
      = 2 := by
  have h := c3_aggregation_order worldBothOk "https://u1.example/s"
    "https://u2.example/s" [recA] [recB] (by rfl) (by rfl)
  exact ⟨h.1, h.2⟩

/-- C5: a page-level failure of the adapter invocation for the first URL is
caught by the per-URL handler of `main`, and the records of the second URL
still appear,
unchanged, in the final aggregate; in general an erroring URL is simply
dropped from the aggregation, leaving the outcomes of the remaining URLs
untouched. -/
theorem c5_per_url_isolation (world : World) (u1 u2 : String) (e : ScrapeError)
    (r2 : List Record) (h1 : world u1 = .error e) (h2 : world u2 = .ok r2) :
    (mainRun world [u1, u2]).articles = tagRecords u2 r2
    ∧ (∀ us : List String, aggregate world (u1 :: us) = aggregate world us) := by
  constructor
  · simp [mainRun, aggregate, h1, h2]
  · intro us
    simp [aggregate, h1]

/-- A world where the invocation for the first URL raises and the second succeeds. -/
def worldFirstFails : World :=
  fun u => if u = "https://u1.example/s" then .error .other else .ok [recB]

/-- C5 witness: isolation at a concrete two-URL run. -/
theorem c5_per_url_isolation_witness :
    (mainRun worldFirstFails ["https://u1.example/s", "https://u2.example/s"]).articles
      = tagRecords "https://u2.example/s" [recB] := by
  exact (c5_per_url_isolation worldFirstFails "https://u1.example/s"
    "https://u2.example/s" .other [recB] (by rfl) (by rfl)).1

/-- C8: a run whose input has an empty `urls` list performs no adapter
invocations, produces an empty articles aggregate, writes no output, and
reports the absence of URLs via the log; `mainRun` is a total function, so
the modelled run returns normally — the Python path (main.py:119-122) only
logs and returns. -/
theorem c8_empty_urls_no_work (world : World) :
    mainRun world [] = ⟨[], 0, 0, true, false⟩ := by
  rfl

/-- C4: for the paginating dynamic adapters (ADNOC, site_scrapers.py:41-77;
Al Jazeera, site_scrapers.py:246-289) and any `maxPages = N`, the pagination
loop performs at most N per-page extraction passes — it terminates by
construction, being a structural recursion on `N - page_num` — and when the
enabled next-page control is absent or disabled on a visited page `i` with
further pages allowed, the loop halts having made at most `i + 1` passes,
i.e. strictly fewer than N. -/
theorem c4_pagination_bounded (query : String) (site : AdnocSite) (asite : AljSite)
    (maxp : Nat) (init : List Record) :
    ((adnocScrape site query maxp init).passes ≤ maxp
      ∧ (aljazeeraScrape asite query maxp init).passes ≤ maxp)
    ∧ (∀ i : Nat, i + 1 < maxp → fetchNext (site.pages i) = false →
        (adnocScrape site query maxp init).passes ≤ i + 1)
    ∧ (∀ i : Nat, i + 1 < maxp → fetchNext (asite.pages i) = false →
        (aljazeeraScrape asite query maxp init).passes ≤ i + 1) := by
  refine ⟨⟨?_, ?_⟩, ?_, ?_⟩
  · unfold adnocScrape
    split
    · simp
    · split
      · simp
      · simpa using pagLoop_passes_le site.pages (adnocExtract query) maxp 0 init 0
  · unfold aljazeeraScrape
    split
    · simp
    · simpa using pagLoop_passes_le asite.pages (aljExtract query) maxp 0 init 0
  · intro i hi hn
    unfold adnocScrape
    split
    · simp
    · split
      · simp
      · have := pagLoop_halt site.pages (adnocExtract query) i maxp 0 init 0 hi
          (by simpa using hn)
        simpa using this
  · intro i hi hn
    unfold aljazeeraScrape
    split
    · simp
    · have := pagLoop_halt asite.pages (aljExtract query) i maxp 0 init 0 hi
        (by simpa using hn)
      simpa using this

/-- An ADNOC environment whose first page offers no next-page control. -/
def adnocNoNext : AdnocSite := ⟨false, false, fun _ => .ok [] false⟩

/-- An Al Jazeera environment whose first page offers no next-page control. -/
def aljNoNext : AljSite := ⟨false, fun _ => .ok [] false⟩

/-- C4 witness: with `maxPages = 3` and no next-page control on page 0, both
paginating scrapers stop after a single extraction pass. -/
theorem c4_pagination_bounded_witness :
    (adnocScrape adnocNoNext "q" 3 []).passes ≤ 1
    ∧ (aljazeeraScrape aljNoNext "q" 3 []).passes ≤ 1 := by
  constructor
  · exact (c4_pagination_bounded "q" adnocNoNext aljNoNext 3 []).2.1 0
      (by decide) (by decide)
  · exact (c4_pagination_bounded "q" adnocNoNext aljNoNext 3 []).2.2 0
      (by decide) (by decide)

/-- An ADNOC element with all fields present. -/
def adElemGood : AdnocElement :=
  ⟨some "Oil output rises", some (some "/a/1"), some "1 May", some "snip"⟩

/-- An ADNOC environment whose first page loads with one good element and an
enabled next button, and whose second page load raises. -/
def adnocErrAfterOne : AdnocSite :=
  ⟨false, false, fun i => if i = 0 then .ok [adElemGood] true else .err⟩

/-- C6 counterexample: with `maxPages = 2`, page 0 yields one record and the
navigation to page 1 raises; the records accumulated so far are non-empty
(they sit in `self.results`, the `.state` component), yet the call returns
`[]` (site_scrapers.py:82-84: `except ... return []`), not the accumulated
records the claim promises. -/
theorem c6_counterexample :
    (adnocScrape adnocErrAfterOne "q" 2 []).state ≠ []
    ∧ (adnocScrape adnocErrAfterOne "q" 2 []).ret = []
    ∧ (adnocScrape adnocErrAfterOne "q" 2 []).ret
      ≠ (adnocScrape adnocErrAfterOne "q" 2 []).state := by
  decide

/-- C6 amended: when a page-level fetch or navigation error occurs after `i`
pages were extracted, `scrape` catches the error and returns the *empty*
list — not the accumulated records, which remain only in the instance
`results` attribute — and does not propagate the exception; likewise an Ahram
fetch failure returns `[]` leaving the instance state untouched. -/
theorem c6_error_returns_empty (site : AdnocSite) (E : Nat → List AdnocElement)
    (query : String) (maxp i : Nat) (init : List Record)
    (hinit : site.initial_err = false) (hzero : site.zero_matches = false)
    (hok : ∀ j, j < i → site.pages j = .ok (E j) true)
    (herr : site.pages i = .err) (hlt : i < maxp) :
    (adnocScrape site query maxp init).ret = []
    ∧ (adnocScrape site query maxp init).state
      = init ++ pageRecords (adnocExtract query) E i
    ∧ (∀ rows : List AhramElement,
        ahramScrape ⟨true, rows⟩ query maxp init = ⟨[], init, 0⟩) := by
  have hloop := pagLoop_err_at (adnocExtract query) i site.pages E maxp 0 init 0
    (by intro j hj; simpa using hok j hj) (by simpa using herr) hlt
  refine ⟨?_, ?_, ?_⟩
  · simp [adnocScrape, hinit, hzero, hloop]
  · simp [adnocScrape, hinit, hzero, hloop]
  · intro rows
    simp [ahramScrape]

/-- C6 amended witness: the concrete error-after-one-page environment. -/
theorem c6_error_returns_empty_witness :
    (adnocScrape adnocErrAfterOne "q" 2 []).ret = []
    ∧ (adnocScrape adnocErrAfterOne "q" 2 []).state
      = pageRecords (adnocExtract "q") (fun _ => [adElemGood]) 1 := by
  have h := c6_error_returns_empty adnocErrAfterOne (fun _ => [adElemGood]) "q" 2 1 []
    rfl rfl
    (by intro j hj; have hj0 : j = 0 := by omega
        subst hj0; rfl)
    (by rfl) (by omega)
  exact ⟨h.1, by simpa using h.2.1⟩

lemma create_scraper_is_base (url : String) :
    create_scraper url = .basePlaywright ∨ create_scraper url = .baseRequests := by
  simp only [create_scraper]
  split_ifs <;> simp

/-- C9: a target URL whose domain contains no `SCRAPER_MAP` key resolves to a
base-class adapter (`RequestsScraper` or `PlaywrightScraper`) whose `scrape`
unconditionally raises `NotImplementedError` (core.py:89-98, 131-140); so in
any run the invocation for such a URL errors, the exception is caught at the
per-URL boundary of `main`, the URL contributes exactly zero records, and the
remaining URLs are aggregated as if it were absent. -/
theorem c9_unmatched_url_contributes_nothing
    (siteOutcome : String → Except ScrapeError (List Record))
    (url : String) (us : List String)
    (h : findScraper (domainOf url) = none) :
    worldWith siteOutcome url = .error .notImplemented
    ∧ aggregate (worldWith siteOutcome) (url :: us)
      = aggregate (worldWith siteOutcome) us := by
  have hres : get_scraper_for_url url = create_scraper url := by
    unfold get_scraper_for_url
    rw [h]
  have hworld : worldWith siteOutcome url = .error .notImplemented := by
    unfold worldWith
    rw [hres]
    rcases create_scraper_is_base url with hb | hb <;>
      rw [hb] <;> rfl
  refine ⟨hworld, ?_⟩
  simp [aggregate, hworld]

/-- C9 witness: a concrete unknown-domain URL errors with
`NotImplementedError` and contributes nothing ahead of an empty tail. -/
theorem c9_unmatched_url_contributes_nothing_witness :
    worldWith (fun _ => Except.ok []) "https://unknown.example/search"
      = Except.error ScrapeError.notImplemented
    ∧ aggregate (worldWith (fun _ => Except.ok []))
        ["https://unknown.example/search"] = [] := by
  have h := c9_unmatched_url_contributes_nothing (fun _ => Except.ok [])
    "https://unknown.example/search" [] (by decide)
  exact ⟨h.1, h.2⟩

/-- An ADNOC environment that renders but shows the "we found 0 matches"
banner (site_scrapers.py:35-38). -/
def adnocZeroMatches : AdnocSite := ⟨false, true, fun _ => .ok [] false⟩

/-- An ADNOC environment whose page 0 loads `es` with an enabled next button
and whose page 1 load raises. -/
def adnocPageThenErr (es : List AdnocElement) : AdnocSite :=
  ⟨false, false, fun i => if i = 0 then .ok es true else .err⟩

/-- C10 counterexample: on an instance whose `results` list already holds a
record from a previous invocation, a second, *successful* (non-exception)
call that hits the "we found 0 matches" early return yields `[]`
(site_scrapers.py:36-38), not the entire instance list as the claim clause "on
success, returns the entire list" promises. -/
theorem c10_counterexample :
    (adnocScrape adnocZeroMatches "q" 1 [recA]).ret = []
    ∧ (adnocScrape adnocZeroMatches "q" 1 [recA]).state = [recA]
    ∧ (adnocScrape adnocZeroMatches "q" 1 [recA]).ret
      ≠ (adnocScrape adnocZeroMatches "q" 1 [recA]).state := by
  decide

/-- C10 amended: the `results` list is instance state initialized once in
`BaseScraper.__init__` (core.py:31) and only appended to; each scrape call
appends its extracted records, and a call that completes its pagination loop
returns the entire list — so a second such call on the same instance returns
the records of both invocations; the ADNOC no-matches early return is the one
successful path that instead returns `[]` (leaving the list unchanged).
After a caught page-level error the instance list still holds the records
extracted before the error even though `scrape` returns `[]`. -/
theorem c10_results_accumulate (site : AdnocSite) (q : String) (maxp : Nat)
    (init : List Record) (es1 es2 es3 : List AdnocElement) :
    (∃ t, (adnocScrape site q maxp init).state = init ++ t)
    ∧ (adnocScrape (adnocOnePage es1) q 1 init).ret
      = init ++ es1.filterMap (adnocExtract q)
    ∧ (adnocScrape (adnocOnePage es2) q 1
        ((adnocScrape (adnocOnePage es1) q 1 init).state)).ret
      = init ++ es1.filterMap (adnocExtract q) ++ es2.filterMap (adnocExtract q)
    ∧ (adnocScrape (adnocPageThenErr es3) q 2 init).ret = []
    ∧ (adnocScrape (adnocPageThenErr es3) q 2 init).state
      = init ++ es3.filterMap (adnocExtract q) := by
  refine ⟨?_, ?_, ?_, ?_, ?_⟩
  · unfold adnocScrape
    split
    · exact ⟨[], by simp⟩
    · split
      · exact ⟨[], by simp⟩
      · exact pagLoop_state_append site.pages (adnocExtract q) maxp 0 init 0
  · simp [adnocScrape, adnocOnePage, pagLoop]
  · simp [adnocScrape, adnocOnePage, pagLoop]
  · simp [adnocScrape, adnocPageThenErr, pagLoop]
  · simp [adnocScrape, adnocPageThenErr, pagLoop]
